import Mathlib

/-!
Shallow embedding of the core calculation logic of BatteryUtils
(`src/batteryutils.py`, class `BatteryCalculatorGUI`) and of its variant
`src/batteryutils_EXPERIMENTAL.py`.

Python `float` arithmetic is modelled over `ℚ` (exact rational arithmetic);
all quantities the claims mention (table constants, interpolation results,
percentages) are decimal fractions, exact in this model.  GUI text entries
are modelled as already-parsed optional numbers: `none` stands for a string
whose `float(...)` / `int(...)` conversion raises `ValueError`; the source's
convention `float(s) if s else 0.0` (blank entry becomes `0.0`) is applied by
the caller before our functions are invoked, so numeric parameters are plain
`ℚ` where the source applies that convention.
-/

set_option linter.unusedVariables false
set_option linter.unnecessarySeqFocus false

namespace BatteryUtils

/-- Python 3 `round` to the nearest integer, ties to even (banker's
rounding), as used in `int(round(nominal_voltage_float))`. -/
def pyRound (x : ℚ) : ℤ :=
  let f := ⌊x⌋
  let frac := x - (f : ℚ)
  if frac < 1/2 then f
  else if 1/2 < frac then f + 1
  else if f % 2 = 0 then f else f + 1

/-- `CELL_VOLTAGE_FULL = 4.2` — volts per cell at 100% charge. -/
def CELL_VOLTAGE_FULL : ℚ := 42/10

/-- `CELL_VOLTAGE_EMPTY = 3.0` — volts per cell at 0% charge. -/
def CELL_VOLTAGE_EMPTY : ℚ := 3

/-- `NOMINAL_VOLTAGE_TO_SERIES_CELLS.get k` — the fixed nominal-voltage →
series-cells dictionary `{36: 10, 48: 13, 52: 14, 60: 16, 72: 20}`. -/
def NOMINAL_VOLTAGE_TO_SERIES_CELLS (k : ℤ) : Option ℤ :=
  if k = 36 then some 10
  else if k = 48 then some 13
  else if k = 52 then some 14
  else if k = 60 then some 16
  else if k = 72 then some 20
  else none

/-- `get_derived_voltage_range_and_s` (batteryutils.py lines 1042-1092):
from the nominal-voltage entry (already parsed, `none` on `ValueError`) and
the manual series-cells entry, returns `(min_v, max_v, series_cells)` or
`none` (the source's `None, None, None`).

Control flow follows the source exactly: on a parse failure, or when the
rounded voltage is not a key of `NOMINAL_VOLTAGE_TO_SERIES_CELLS`, the
function returns early with `None, None, None` (showing the manual-entry
widgets).  The later fallback `series_cells = int(self.series_cells_entry.text())`
is unreachable, because it runs only when `inferred_s is None`, and that case
has already returned; the `series_cells_entry` parameter is therefore never
consulted. -/
def get_derived_voltage_range_and_s (nominal_voltage : Option ℚ)
    (series_cells_entry : Option ℤ) : Option (ℚ × ℚ × ℤ) :=
  match nominal_voltage with
  | none => none
  | some nv =>
    match NOMINAL_VOLTAGE_TO_SERIES_CELLS (pyRound nv) with
    | none => none
    | some inferred_s =>
      let series_cells := inferred_s
      if series_cells > 0 then
        some ((series_cells : ℚ) * CELL_VOLTAGE_EMPTY,
              (series_cells : ℚ) * CELL_VOLTAGE_FULL, series_cells)
      else none

end BatteryUtils

namespace BatteryUtils

/-- `pyRound` never exceeds `⌊x⌋ + 1`. -/
theorem pyRound_le_floor_add_one (x : ℚ) : pyRound x ≤ ⌊x⌋ + 1 := by
  unfold pyRound
  dsimp only
  split_ifs <;> omega

/-- Anything inferred from the series-cells table is one of the five
documented counts. -/
theorem table_mem (k : ℤ) (s : ℤ)
    (h : NOMINAL_VOLTAGE_TO_SERIES_CELLS k = some s) :
    (k = 36 ∧ s = 10) ∨ (k = 48 ∧ s = 13) ∨ (k = 52 ∧ s = 14) ∨
    (k = 60 ∧ s = 16) ∨ (k = 72 ∧ s = 20) := by
  unfold NOMINAL_VOLTAGE_TO_SERIES_CELLS at h
  repeat' split at h
  all_goals simp_all

end BatteryUtils

namespace BatteryUtils

/-- C3: for every nominal voltage in the fixed table, geometry resolution
with no manual cell count yields the documented series-cell count (and the
derived bounds), the lookup key being the voltage rounded to the nearest
integer. -/
theorem geometry_table_counts :
    get_derived_voltage_range_and_s (some 36) none = some (30, 42, 10) ∧
    get_derived_voltage_range_and_s (some 48) none = some (39, 273/5, 13) ∧
    get_derived_voltage_range_and_s (some 52) none = some (42, 294/5, 14) ∧
    get_derived_voltage_range_and_s (some 60) none = some (48, 336/5, 16) ∧
    get_derived_voltage_range_and_s (some 72) none = some (60, 84, 20) := by
  refine ⟨?_, ?_, ?_, ?_, ?_⟩ <;>
    norm_num [get_derived_voltage_range_and_s, NOMINAL_VOLTAGE_TO_SERIES_CELLS,
      pyRound, CELL_VOLTAGE_EMPTY, CELL_VOLTAGE_FULL]

/-- Whenever `get_derived_voltage_range_and_s` succeeds, the bounds it
returns are `series_cells * CELL_VOLTAGE_EMPTY` and
`series_cells * CELL_VOLTAGE_FULL`, with a positive cell count. -/
theorem get_derived_some_spec (nv : Option ℚ) (e : Option ℤ) (mn mx : ℚ) (s : ℤ)
    (h : get_derived_voltage_range_and_s nv e = some (mn, mx, s)) :
    mn = (s : ℚ) * CELL_VOLTAGE_EMPTY ∧ mx = (s : ℚ) * CELL_VOLTAGE_FULL ∧ 0 < s := by
  unfold get_derived_voltage_range_and_s at h
  rcases nv with _ | v
  · exact absurd h (by simp)
  · dsimp only at h
    rcases htbl : NOMINAL_VOLTAGE_TO_SERIES_CELLS (pyRound v) with _ | t
    · rw [htbl] at h
      exact absurd h (by simp)
    · rw [htbl] at h
      dsimp only at h
      split_ifs at h with ht
      simp only [Option.some.injEq, Prod.mk.injEq] at h
      obtain ⟨h1, h2, rfl⟩ := h
      exact ⟨h1.symm, h2.symm, ht⟩

/-- C7: geometry resolution fails (returns no geometry — the source's
`None, None, None`) whenever the supplied nominal voltage is `≤ 0`, for
every value of the manual series-cells entry.  A nonpositive voltage rounds
to an integer `≤ 1`, which is never a key of
`NOMINAL_VOLTAGE_TO_SERIES_CELLS`, and that branch returns before the
manual entry is ever consulted. -/
theorem geometry_fails_nonpositive_voltage (v : ℚ) (hv : v ≤ 0) (e : Option ℤ) :
    get_derived_voltage_range_and_s (some v) e = none := by
  have hfloor : ⌊v⌋ ≤ 0 := by
    calc ⌊v⌋ ≤ ⌊(0 : ℚ)⌋ := Int.floor_le_floor hv
    _ = 0 := Int.floor_zero
  have h1 : pyRound v ≤ 1 := le_trans (pyRound_le_floor_add_one v) (by omega)
  have h2 : NOMINAL_VOLTAGE_TO_SERIES_CELLS (pyRound v) = none := by
    unfold NOMINAL_VOLTAGE_TO_SERIES_CELLS
    split_ifs <;> first | rfl | (exfalso; omega)
  simp [get_derived_voltage_range_and_s, h2]

/-- Witness for `geometry_fails_nonpositive_voltage` at voltage `-5` with a
manual entry of 14 cells. -/
theorem geometry_fails_nonpositive_voltage_witness :
    (-5 : ℚ) ≤ 0 ∧ get_derived_voltage_range_and_s (some (-5)) (some 14) = none :=
  ⟨by norm_num, geometry_fails_nonpositive_voltage (-5) (by norm_num) (some 14)⟩

/-- C8: for every series-cell count `s > 0`, the derived voltage bounds
(`empty = s * CELL_VOLTAGE_EMPTY = s*3.0`, `full = s * CELL_VOLTAGE_FULL =
s*4.2`) satisfy `full - empty = s * 1.2` exactly; and every successful run
of `get_derived_voltage_range_and_s` with cell count `s` returns bounds
with exactly that span. -/
theorem voltage_span (s : ℤ) (hs : 0 < s) :
    (s : ℚ) * CELL_VOLTAGE_FULL - (s : ℚ) * CELL_VOLTAGE_EMPTY = (s : ℚ) * (12/10) ∧
    ∀ (nv : Option ℚ) (e : Option ℤ) (mn mx : ℚ),
      get_derived_voltage_range_and_s nv e = some (mn, mx, s) →
      mx - mn = (s : ℚ) * (12/10) := by
  constructor
  · unfold CELL_VOLTAGE_FULL CELL_VOLTAGE_EMPTY
    ring
  · intro nv e mn mx h
    obtain ⟨h1, h2, _⟩ := get_derived_some_spec nv e mn mx s h
    rw [h1, h2]
    unfold CELL_VOLTAGE_FULL CELL_VOLTAGE_EMPTY
    ring

/-- Witness for `voltage_span` at the 14S geometry inferred from 52 V. -/
theorem voltage_span_witness :
    (0 : ℤ) < 14 ∧
    ((14 : ℚ) * CELL_VOLTAGE_FULL - (14 : ℚ) * CELL_VOLTAGE_EMPTY = (14 : ℚ) * (12/10) ∧
     ∀ (nv : Option ℚ) (e : Option ℤ) (mn mx : ℚ),
       get_derived_voltage_range_and_s nv e = some (mn, mx, 14) →
       mx - mn = (14 : ℚ) * (12/10)) :=
  ⟨by norm_num, voltage_span 14 (by norm_num)⟩

end BatteryUtils

namespace BatteryUtils

/-- The driving styles of the `driving_style_combo`: the three table keys
(`"Eco"`, `"Casual"`, `"Agressive"` — the source's spelling) plus `Unknown`
for any other string, on which both dictionary `.get` lookups return
`None`. -/
inductive DrivingStyle
  | Eco
  | Casual
  | Agressive
  | Unknown
  deriving DecidableEq

/-- The `capacity_type_combo` selection: `"Wh"` or `"Ah"`. -/
inductive CapacityType
  | Wh
  | Ah
  deriving DecidableEq

/-- `SMALL_WHEEL_REF = 10.0` inches. -/
def SMALL_WHEEL_REF : ℚ := 10

/-- `LARGE_WHEEL_REF = 27.5` inches. -/
def LARGE_WHEEL_REF : ℚ := 55/2

/-- `SMALL_WHEEL_EFFICIENCY.get style`:
`{"Eco": 33.28, "Casual": 30.0, "Agressive": 45.0}`. -/
def SMALL_WHEEL_EFFICIENCY : DrivingStyle → Option ℚ
  | DrivingStyle.Eco => some (3328/100)
  | DrivingStyle.Casual => some 30
  | DrivingStyle.Agressive => some 45
  | DrivingStyle.Unknown => none

/-- `LARGE_WHEEL_EFFICIENCY.get style`:
`{"Eco": 41.6, "Casual": 65.0, "Agressive": 80.0}`. -/
def LARGE_WHEEL_EFFICIENCY : DrivingStyle → Option ℚ
  | DrivingStyle.Eco => some (416/10)
  | DrivingStyle.Casual => some 65
  | DrivingStyle.Agressive => some 80
  | DrivingStyle.Unknown => none

/-- The predicted-efficiency block of `calculate_range`
(batteryutils.py lines 1442-1459): interpolation factor from the wheel
diameter, clamped to `[0, 1]`; `None` when the driving style is in neither
table (the source's `QMessageBox.critical` + `return` path). -/
def predicted_wh_per_mile (wheel_diameter : ℚ) (driving_style : DrivingStyle) : Option ℚ :=
  let interpolation_factor :=
    (wheel_diameter - SMALL_WHEEL_REF) / (LARGE_WHEEL_REF - SMALL_WHEEL_REF)
  let interpolation_factor := max 0 (min 1 interpolation_factor)
  match SMALL_WHEEL_EFFICIENCY driving_style, LARGE_WHEEL_EFFICIENCY driving_style with
  | some base_wh_per_mile_small, some base_wh_per_mile_large =>
    some (base_wh_per_mile_small * (1 - interpolation_factor) +
          base_wh_per_mile_large * interpolation_factor)
  | _, _ => none

/-- Which efficiency source `calculate_range` reports in
`efficiency_source_label`. -/
inductive EfficiencySource
  | Predicted
  | Logged
  deriving DecidableEq

/-- The parsed inputs of `calculate_range` (blank entries already turned
into `0.0` by the source's `float(s) if s else 0.0`). -/
structure RangeInputs where
  nominal_voltage : ℚ
  capacity_type : CapacityType
  capacity : ℚ
  driving_style : DrivingStyle
  wheel_diameter : ℚ
  use_logged_efficiency : Bool
  logged_wh_per_mile_average : ℚ
  deriving DecidableEq

/-- The quantities `calculate_range` computes and displays on success. -/
structure RangeResult where
  total_energy_wh : ℚ
  adjusted_wh_per_mile : ℚ
  estimated_range : ℚ
  miles_per_wh : ℚ
  miles_per_ah : ℚ
  efficiency_source : EfficiencySource
  deriving DecidableEq

/-- `calculate_range` (batteryutils.py lines 1404-1494): validates the
inputs, converts Ah to Wh via the nominal voltage, picks the logged average
when `use_logged_efficiency and logged_wh_per_mile_average > 0`, otherwise
the wheel-diameter interpolation, and divides.  `none` is any of the
source's early error returns.  (`miles_per_ah` is guarded in the source by
`if adjusted_wh_per_mile > 0 else 0`, which holds on every path reaching
it.) -/
def calculate_range (inp : RangeInputs) : Option RangeResult :=
  if inp.nominal_voltage ≤ 0 ∨ inp.capacity ≤ 0 ∨ inp.wheel_diameter ≤ 0 then none
  else
    let total_energy_wh :=
      match inp.capacity_type with
      | CapacityType.Wh => inp.capacity
      | CapacityType.Ah => inp.capacity * inp.nominal_voltage
    let source :=
      if inp.use_logged_efficiency ∧ inp.logged_wh_per_mile_average > 0 then
        some (inp.logged_wh_per_mile_average, EfficiencySource.Logged)
      else
        match predicted_wh_per_mile inp.wheel_diameter inp.driving_style with
        | none => none
        | some adjusted => some (adjusted, EfficiencySource.Predicted)
    match source with
    | none => none
    | some (adjusted_wh_per_mile, efficiency_source) =>
      if adjusted_wh_per_mile ≤ 0 then none
      else
        some (RangeResult.mk total_energy_wh adjusted_wh_per_mile
          (total_energy_wh / adjusted_wh_per_mile)
          (1 / adjusted_wh_per_mile)
          (inp.nominal_voltage / adjusted_wh_per_mile)
          efficiency_source)

end BatteryUtils

namespace BatteryUtils

/-- At or below the small reference diameter the clamped interpolation is
pinned to the small-wheel table value (for every style; on `Unknown` both
sides are `none`). -/
theorem predicted_low (d : ℚ) (hd : d ≤ SMALL_WHEEL_REF) (s : DrivingStyle) :
    predicted_wh_per_mile d s = SMALL_WHEEL_EFFICIENCY s := by
  have ht : (d - SMALL_WHEEL_REF) / (LARGE_WHEEL_REF - SMALL_WHEEL_REF) ≤ 0 :=
    div_nonpos_of_nonpos_of_nonneg (by linarith)
      (by norm_num [SMALL_WHEEL_REF, LARGE_WHEEL_REF])
  unfold predicted_wh_per_mile
  dsimp only
  rw [min_eq_right (ht.trans (by norm_num)), max_eq_left ht]
  cases s <;> norm_num [SMALL_WHEEL_EFFICIENCY, LARGE_WHEEL_EFFICIENCY]

/-- At or above the large reference diameter the clamped interpolation is
pinned to the large-wheel table value. -/
theorem predicted_high (d : ℚ) (hd : LARGE_WHEEL_REF ≤ d) (s : DrivingStyle) :
    predicted_wh_per_mile d s = LARGE_WHEEL_EFFICIENCY s := by
  have hden : (0 : ℚ) < LARGE_WHEEL_REF - SMALL_WHEEL_REF := by
    norm_num [SMALL_WHEEL_REF, LARGE_WHEEL_REF]
  have ht : 1 ≤ (d - SMALL_WHEEL_REF) / (LARGE_WHEEL_REF - SMALL_WHEEL_REF) := by
    rw [le_div_iff₀ hden]
    linarith
  unfold predicted_wh_per_mile
  dsimp only
  rw [min_eq_left ht, max_eq_right (by norm_num : (0 : ℚ) ≤ 1)]
  cases s <;> norm_num [SMALL_WHEEL_EFFICIENCY, LARGE_WHEEL_EFFICIENCY]

/-- C2: for every driving style in the tables, the predicted efficiency at
wheel diameter 10.0 is exactly the small-wheel reference, at 27.5 exactly
the large-wheel reference, and outside `[10, 27.5]` it equals the value at
the nearest endpoint (the interpolation factor is clamped to `[0, 1]`). -/
theorem efficiency_endpoints_and_clamp (s : DrivingStyle)
    (hs : s ≠ DrivingStyle.Unknown) :
    predicted_wh_per_mile 10 s = SMALL_WHEEL_EFFICIENCY s ∧
    predicted_wh_per_mile (55/2) s = LARGE_WHEEL_EFFICIENCY s ∧
    (∀ d : ℚ, d < 10 → predicted_wh_per_mile d s = predicted_wh_per_mile 10 s) ∧
    (∀ d : ℚ, 55/2 < d → predicted_wh_per_mile d s = predicted_wh_per_mile (55/2) s) := by
  have h10 : predicted_wh_per_mile 10 s = SMALL_WHEEL_EFFICIENCY s :=
    predicted_low 10 (by norm_num [SMALL_WHEEL_REF]) s
  have h275 : predicted_wh_per_mile (55/2) s = LARGE_WHEEL_EFFICIENCY s :=
    predicted_high (55/2) (by norm_num [LARGE_WHEEL_REF]) s
  refine ⟨h10, h275, ?_, ?_⟩
  · intro d hd
    rw [h10]
    exact predicted_low d (by norm_num [SMALL_WHEEL_REF]; linarith) s
  · intro d hd
    rw [h275]
    exact predicted_high d (by norm_num [LARGE_WHEEL_REF]; linarith) s

/-- Witness for `efficiency_endpoints_and_clamp`: the Eco style, with the
below-range clamp instantiated at diameter 5. -/
theorem efficiency_endpoints_and_clamp_witness :
    DrivingStyle.Eco ≠ DrivingStyle.Unknown ∧ (5 : ℚ) < 10 ∧
    predicted_wh_per_mile 5 DrivingStyle.Eco = predicted_wh_per_mile 10 DrivingStyle.Eco :=
  ⟨by decide, by norm_num,
   (efficiency_endpoints_and_clamp DrivingStyle.Eco (by decide)).2.2.1 5 (by norm_num)⟩

/-- C1: nominal voltage 52, capacity 20 Ah, Eco, wheel diameter 27.5 in, no
logged-efficiency override: `calculate_range` produces total energy
`20*52 = 1040` Wh, Wh/mile exactly `41.6 = 208/5` (the large-wheel Eco
reference), and estimated full range `1040/41.6 = 25.0` miles (with
Miles/Wh `5/208`, Miles/Ah `1.25`, source `Predicted`). -/
theorem range_scenario_52v_20ah_eco :
    calculate_range (RangeInputs.mk 52 CapacityType.Ah 20 DrivingStyle.Eco (55/2) false 0)
      = some (RangeResult.mk 1040 (208/5) 25 (5/208) (5/4) EfficiencySource.Predicted) := by
  norm_num [calculate_range, predicted_wh_per_mile, SMALL_WHEEL_EFFICIENCY,
    LARGE_WHEEL_EFFICIENCY, SMALL_WHEEL_REF, LARGE_WHEEL_REF]

end BatteryUtils

namespace BatteryUtils

/-- The input mode of the current-state section: `percent_radio` checked
(or a percentage value supplied), versus `voltage_radio` checked (or a
`voltage_override` supplied by the ride log). -/
inductive InputMode
  | Percentage
  | Voltage
  deriving DecidableEq

/-- `get_current_battery_percentage` (batteryutils.py lines 1096-1148):
resolves the geometry and converts the supplied value to a
`(percentage, voltage)` pair.  Percentage input outside `[0, 100]` returns
`None`; voltage input is converted with clamping to `[0, 100]`, with the
source's degenerate-range fallback when `max_voltage - min_voltage ≤ 0`.
The `voltage_override` path and the `voltage_radio` path of the source are
the same computation, so both are `InputMode.Voltage` here.  (The function
also reads capacity entries, but never uses them.) -/
def get_current_battery_percentage (nominal_voltage : Option ℚ)
    (series_cells_entry : Option ℤ) (mode : InputMode) (value : ℚ) :
    Option (ℚ × ℚ) :=
  match get_derived_voltage_range_and_s nominal_voltage series_cells_entry with
  | none => none
  | some (min_voltage, max_voltage, _series_cells) =>
    match mode with
    | InputMode.Percentage =>
      if 0 ≤ value ∧ value ≤ 100 then
        some (value, min_voltage + (value / 100) * (max_voltage - min_voltage))
      else none
    | InputMode.Voltage =>
      let voltage_range_diff := max_voltage - min_voltage
      if voltage_range_diff > 0 then
        some (max 0 (min 100 ((value - min_voltage) / voltage_range_diff * 100)), value)
      else
        some (if value ≤ min_voltage then 0 else 100, value)

end BatteryUtils

namespace BatteryUtils

/-- C4: round-trip of the state estimator.  For any resolved geometry and
any percentage `p ∈ [0, 100]`, percentage input `p` derives the voltage
`min + (p/100)*(max-min)`, and feeding that voltage back through voltage
input recovers a percentage within `1e-9` of `p` (in this exact model the
round-trip is exact). -/
theorem state_roundtrip (nv : Option ℚ) (e : Option ℤ) (mn mx : ℚ) (s : ℤ) (p : ℚ)
    (hg : get_derived_voltage_range_and_s nv e = some (mn, mx, s))
    (hp0 : 0 ≤ p) (hp1 : p ≤ 100) :
    get_current_battery_percentage nv e InputMode.Percentage p
      = some (p, mn + (p / 100) * (mx - mn)) ∧
    ∃ q w, get_current_battery_percentage nv e InputMode.Voltage
        (mn + (p / 100) * (mx - mn)) = some (q, w) ∧ |q - p| ≤ 1/1000000000 := by
  obtain ⟨hmn, hmx, hs⟩ := get_derived_some_spec nv e mn mx s hg
  have hspos : (0 : ℚ) < (s : ℚ) := by exact_mod_cast hs
  have hd : mx - mn > 0 := by
    rw [hmn, hmx]
    unfold CELL_VOLTAGE_FULL CELL_VOLTAGE_EMPTY
    nlinarith
  constructor
  · unfold get_current_battery_percentage
    rw [hg]
    dsimp only
    rw [if_pos ⟨hp0, hp1⟩]
  · refine ⟨p, mn + (p / 100) * (mx - mn), ?_, by simp⟩
    unfold get_current_battery_percentage
    rw [hg]
    dsimp only
    rw [if_pos hd]
    have hval : (mn + p / 100 * (mx - mn) - mn) / (mx - mn) * 100 = p := by
      field_simp
      ring
    rw [hval, min_eq_right hp1, max_eq_right hp0]

/-- Witness for `state_roundtrip`: the 14S geometry inferred from 52 V
(bounds 42 V and 58.8 V) at 40%. -/
theorem state_roundtrip_witness :
    (0 : ℚ) ≤ 40 ∧ (40 : ℚ) ≤ 100 ∧
    (get_current_battery_percentage (some 52) none InputMode.Percentage 40
        = some (40, 42 + (40 / 100) * (294/5 - 42)) ∧
     ∃ q w, get_current_battery_percentage (some 52) none InputMode.Voltage
         (42 + (40 / 100) * (294/5 - 42)) = some (q, w) ∧ |q - 40| ≤ 1/1000000000) :=
  ⟨by norm_num, by norm_num,
   state_roundtrip (some 52) none 42 (294/5) 14 40
     (by norm_num [get_derived_voltage_range_and_s, NOMINAL_VOLTAGE_TO_SERIES_CELLS,
       pyRound, CELL_VOLTAGE_EMPTY, CELL_VOLTAGE_FULL])
     (by norm_num) (by norm_num)⟩

end BatteryUtils

namespace BatteryUtils

/-- One logged ride as `calculate_average_efficiency` reads it: the
`wh_consumed` and `distance_miles` fields after `float(...)`, where `none`
stands for a value on which the conversion raises `ValueError`/`TypeError`
(a missing field defaults to `0`, which converts fine).  When either
conversion raises, the ride is skipped before either total is updated, so a
malformed entry contributes to neither sum. -/
def ride_fold (acc : ℚ × ℚ) (ride : Option ℚ × Option ℚ) : ℚ × ℚ :=
  match ride with
  | (some wh, some dist) => (acc.1 + wh, acc.2 + dist)
  | _ => acc

/-- `calculate_average_efficiency` (batteryutils.py lines 1867-1893):
totals the numerically valid rides and, when the total distance is
positive, returns `(average Wh/mile, average Miles/Wh)`; otherwise the
labels show `N/A` (modelled as `none`). -/
def calculate_average_efficiency (rides : List (Option ℚ × Option ℚ)) :
    Option (ℚ × ℚ) :=
  let totals := rides.foldl ride_fold (0, 0)
  let total_wh_consumed := totals.1
  let total_distance_miles := totals.2
  if total_distance_miles > 0 then
    let average_wh_per_mile := total_wh_consumed / total_distance_miles
    some (average_wh_per_mile, 1 / average_wh_per_mile)
  else none

/-- The rides whose two fields both parse as numbers (the claim's notion of
a well-formed entry). -/
def validRides (rides : List (Option ℚ × Option ℚ)) : List (ℚ × ℚ) :=
  rides.filterMap fun ride =>
    match ride with
    | (some wh, some dist) => some (wh, dist)
    | _ => none

/-- Total energy over the well-formed rides. -/
def totalWh (rides : List (Option ℚ × Option ℚ)) : ℚ :=
  ((validRides rides).map Prod.fst).sum

/-- Total distance over the well-formed rides. -/
def totalDistance (rides : List (Option ℚ × Option ℚ)) : ℚ :=
  ((validRides rides).map Prod.snd).sum

/-- The source's running fold equals the two filtered sums. -/
theorem ride_fold_eq (rides : List (Option ℚ × Option ℚ)) (a b : ℚ) :
    rides.foldl ride_fold (a, b) = (a + totalWh rides, b + totalDistance rides) := by
  induction rides generalizing a b with
  | nil => simp [totalWh, totalDistance, validRides]
  | cons r rs ih =>
    rcases r with ⟨w, d⟩
    rcases w with _ | w <;> rcases d with _ | d <;>
      simp only [List.foldl_cons, ride_fold, ih, totalWh, totalDistance, validRides,
        List.filterMap_cons, List.map_cons, List.sum_cons] <;>
      try (refine Prod.ext ?_ ?_ <;> dsimp <;> ring)

/-- C5: the average efficiency is the total-weighted `totalWh/totalDistance`
over the rides whose two fields both parse (malformed entries contribute
neither field), its reciprocal is `1/average`; an empty log, or one whose
total distance is not positive, yields `N/A`; and two rides of
`(100 Wh, 10 mi)` each yield 10.0 Wh/mile. -/
theorem average_efficiency_spec :
    (∀ rides : List (Option ℚ × Option ℚ),
      calculate_average_efficiency rides =
        if totalDistance rides > 0 then
          some (totalWh rides / totalDistance rides,
                1 / (totalWh rides / totalDistance rides))
        else none) ∧
    calculate_average_efficiency [] = none ∧
    calculate_average_efficiency [(some 100, some 10), (some 100, some 10)]
      = some (10, 1/10) := by
  have hmain : ∀ rides : List (Option ℚ × Option ℚ),
      calculate_average_efficiency rides =
        if totalDistance rides > 0 then
          some (totalWh rides / totalDistance rides,
                1 / (totalWh rides / totalDistance rides))
        else none := by
    intro rides
    unfold calculate_average_efficiency
    rw [ride_fold_eq rides 0 0]
    simp
  refine ⟨hmain, by simp [calculate_average_efficiency, ride_fold], ?_⟩
  have hv : validRides [(some 100, some 10), (some 100, some 10)]
      = [(100, 10), (100, 10)] := rfl
  rw [hmain]
  norm_num [totalWh, totalDistance, hv, List.map_cons, List.sum_cons]

end BatteryUtils

namespace BatteryUtils

/-- Python `float(f"{x:.2f}")`: the value printed with 2 decimal places
(ties to even) and parsed back.  `calculate_range` displays `miles_per_wh`
this way in `miles_per_wh_label`, and `calculate_cutoff_metrics` later
re-reads the label text as its efficiency input. -/
def formatF2 (x : ℚ) : ℚ := (pyRound (x * 100) : ℚ) / 100

/-- What the `range_to_cutoff_label` ends up showing. -/
inductive CutoffRangeResult
  | notApplicable
  | atOrBelowCutoff
  | efficiencyError
  | miles (r : ℚ)
  deriving DecidableEq

/-- The range-to-cutoff part of `calculate_cutoff_metrics` (batteryutils.py
lines 1225-1280): validates the cutoff percentage and the current state,
returns the `"N/A (At/Below Cutoff)"` sentinel when
`current_percentage <= preferred_cutoff_percentage`, and otherwise divides
the Wh between current and cutoff by an efficiency recovered as
`1 / float(miles_per_wh_label.text())` — the label text, not the exact
value `calculate_range` computed. -/
def range_to_cutoff (preferred_cutoff_percentage : ℚ) (current_percentage : Option ℚ)
    (nominal_voltage capacity : ℚ) (capacity_type : CapacityType)
    (full_charge_range : ℚ) (miles_per_wh_label : ℚ) : CutoffRangeResult :=
  if ¬(0 ≤ preferred_cutoff_percentage ∧ preferred_cutoff_percentage ≤ 100) then
    CutoffRangeResult.notApplicable
  else
    match current_percentage with
    | none => CutoffRangeResult.notApplicable
    | some cur =>
      if cur ≤ preferred_cutoff_percentage then CutoffRangeResult.atOrBelowCutoff
      else if nominal_voltage ≤ 0 ∨ capacity ≤ 0 then CutoffRangeResult.notApplicable
      else
        let total_energy_wh :=
          match capacity_type with
          | CapacityType.Wh => capacity
          | CapacityType.Ah => capacity * nominal_voltage
        if full_charge_range ≤ 0 then CutoffRangeResult.notApplicable
        else
          let percent_difference := cur - preferred_cutoff_percentage
          let wh_available_to_cutoff := total_energy_wh * (percent_difference / 100)
          let miles_per_wh := miles_per_wh_label
          let adjusted_wh_per_mile := if miles_per_wh > 0 then 1 / miles_per_wh else 0
          if adjusted_wh_per_mile > 0 then
            CutoffRangeResult.miles (wh_available_to_cutoff / adjusted_wh_per_mile)
          else CutoffRangeResult.efficiencyError

end BatteryUtils

namespace BatteryUtils

/-- C6 (code bug): in the 52 V / 20 Ah / Eco / 27.5 in scenario at current
percentage 100 and cutoff 25, `calculate_range` gives full range 25 mi and
Miles/Wh `5/208 ≈ 0.024`, displayed as `0.02`; `calculate_cutoff_metrics`
rebuilds the efficiency from that display (`1/0.02 = 50` Wh/mile) and
reports `1040 * 0.75 / 50 = 15.6` mi — not `fullRange*(100-25)/100 =
18.75` mi as the claim (and the source's own "use the same efficiency as
the main range calculation" comment) require.  The at-or-below-cutoff
sentinel half of the claim does hold (final conjunct, current 20 ≤ cutoff
25). -/
theorem cutoff_uses_rounded_display :
    (calculate_range (RangeInputs.mk 52 CapacityType.Ah 20 DrivingStyle.Eco (55/2) false 0)).map
        (fun r => (r.estimated_range,
          range_to_cutoff 25
            ((get_current_battery_percentage (some 52) none InputMode.Percentage 100).map Prod.fst)
            52 20 CapacityType.Ah r.estimated_range (formatF2 r.miles_per_wh)))
      = some (25, CutoffRangeResult.miles (78/5)) ∧
    (78/5 : ℚ) ≠ 25 * ((100 - 25) / 100) ∧
    range_to_cutoff 25 (some 20) 52 20 CapacityType.Ah 25 (1/50)
      = CutoffRangeResult.atOrBelowCutoff := by
  refine ⟨?_, by norm_num, by norm_num [range_to_cutoff]⟩
  have hcr : calculate_range
      (RangeInputs.mk 52 CapacityType.Ah 20 DrivingStyle.Eco (55/2) false 0)
      = some (RangeResult.mk 1040 (208/5) 25 (5/208) (5/4) EfficiencySource.Predicted) := by
    norm_num [calculate_range, predicted_wh_per_mile, SMALL_WHEEL_EFFICIENCY,
      LARGE_WHEEL_EFFICIENCY, SMALL_WHEEL_REF, LARGE_WHEEL_REF]
  rw [hcr]
  have hpct : (get_current_battery_percentage (some 52) none InputMode.Percentage 100).map Prod.fst
      = some 100 := by
    norm_num [get_current_battery_percentage, get_derived_voltage_range_and_s,
      NOMINAL_VOLTAGE_TO_SERIES_CELLS, pyRound, CELL_VOLTAGE_EMPTY, CELL_VOLTAGE_FULL]
  simp only [Option.map_some']
  rw [hpct]
  have hf2 : formatF2 (5/208) = 1/50 := by
    norm_num [formatF2, pyRound]
  rw [hf2]
  norm_num [range_to_cutoff]

end BatteryUtils

namespace BatteryUtils

/-- `calculate_percentage_after_charge` (batteryutils.py lines 1150-1193):
converts the current percentage to Ah, adds `charge_rate * duration_hours`,
converts back and caps at 100.  `none` is any of the source's silent early
returns (nonpositive inputs, zero capacity, unresolvable current state).
The source's `total_capacity_wh / nominal_voltage if nominal_voltage > 0
else 0` guard is inside the branch where `nominal_voltage > 0` already
holds. -/
def calculate_percentage_after_charge (nominal_voltage capacity charge_rate : ℚ)
    (capacity_type : CapacityType) (current_percentage : Option ℚ)
    (duration_hours : ℚ) : Option ℚ :=
  if nominal_voltage ≤ 0 ∨ capacity ≤ 0 ∨ charge_rate ≤ 0 then none
  else
    let total_capacity_wh :=
      match capacity_type with
      | CapacityType.Wh => capacity
      | CapacityType.Ah => capacity * nominal_voltage
    let total_capacity_ah := total_capacity_wh / nominal_voltage
    if total_capacity_ah ≤ 0 then none
    else
      match current_percentage with
      | none => none
      | some cur =>
        let current_ah := total_capacity_ah * (cur / 100)
        let ah_charged_in_duration := charge_rate * duration_hours
        let new_ah := current_ah + ah_charged_in_duration
        let new_percentage := (new_ah / total_capacity_ah) * 100
        some (min 100 new_percentage)

end BatteryUtils

namespace BatteryUtils

/-- C10: for positive voltage/capacity/charge rate, a current percentage in
`[0, 100]` and durations `0 ≤ d₁ ≤ d₂`, the after-charge percentage is
defined, lies in `[current, 100]`, and is non-decreasing in the duration. -/
theorem percentage_after_charge_bounded_monotone
    (nv cap rate cur d1 d2 : ℚ) (ct : CapacityType)
    (hnv : 0 < nv) (hcap : 0 < cap) (hrate : 0 < rate)
    (hcur0 : 0 ≤ cur) (hcur1 : cur ≤ 100) (hd1 : 0 ≤ d1) (hd12 : d1 ≤ d2) :
    ∃ p1 p2,
      calculate_percentage_after_charge nv cap rate ct (some cur) d1 = some p1 ∧
      calculate_percentage_after_charge nv cap rate ct (some cur) d2 = some p2 ∧
      cur ≤ p1 ∧ p1 ≤ 100 ∧ p1 ≤ p2 := by
  obtain ⟨wh, hwhdef, hwh⟩ :
      ∃ wh : ℚ, (match ct with
        | CapacityType.Wh => cap
        | CapacityType.Ah => cap * nv) = wh ∧ 0 < wh :=
    ⟨_, rfl, by cases ct <;> dsimp only <;> positivity⟩
  have hah : (0 : ℚ) < wh / nv := by positivity
  have heval : ∀ d : ℚ,
      calculate_percentage_after_charge nv cap rate ct (some cur) d
        = some (min 100 ((wh / nv * (cur / 100) + rate * d) / (wh / nv) * 100)) := by
    intro d
    unfold calculate_percentage_after_charge
    rw [if_neg (by push_neg; exact ⟨hnv, hcap, hrate⟩)]
    dsimp only
    rw [hwhdef, if_neg (not_le.mpr hah)]
  have hsimpl : ∀ d : ℚ,
      (wh / nv * (cur / 100) + rate * d) / (wh / nv) * 100
        = cur + rate * d / (wh / nv) * 100 := by
    intro d
    have h1 : wh ≠ 0 := ne_of_gt hwh
    have h2 : nv ≠ 0 := ne_of_gt hnv
    field_simp
    ring
  refine ⟨min 100 ((wh / nv * (cur / 100) + rate * d1) / (wh / nv) * 100),
          min 100 ((wh / nv * (cur / 100) + rate * d2) / (wh / nv) * 100),
          heval d1, heval d2, ?_, min_le_left _ _, ?_⟩
  · rw [hsimpl d1]
    have hadd : (0 : ℚ) ≤ rate * d1 / (wh / nv) * 100 := by positivity
    exact le_min hcur1 (by linarith)
  · rw [hsimpl d1, hsimpl d2]
    have hmono : rate * d1 / (wh / nv) * 100 ≤ rate * d2 / (wh / nv) * 100 := by
      gcongr
    exact min_le_min le_rfl (by linarith)

/-- Witness for `percentage_after_charge_bounded_monotone`: 52 V, 20 Ah,
4 A charger, 50% state, durations 1 h and 2 h. -/
theorem percentage_after_charge_bounded_monotone_witness :
    ((0:ℚ) < 52 ∧ (0:ℚ) < 20 ∧ (0:ℚ) < 4 ∧ (0:ℚ) ≤ 50 ∧ (50:ℚ) ≤ 100 ∧
     (0:ℚ) ≤ 1 ∧ (1:ℚ) ≤ 2) ∧
    ∃ p1 p2,
      calculate_percentage_after_charge 52 20 4 CapacityType.Ah (some 50) 1 = some p1 ∧
      calculate_percentage_after_charge 52 20 4 CapacityType.Ah (some 50) 2 = some p2 ∧
      50 ≤ p1 ∧ p1 ≤ 100 ∧ p1 ≤ p2 :=
  ⟨by norm_num,
   percentage_after_charge_bounded_monotone 52 20 4 50 1 2 CapacityType.Ah
     (by norm_num) (by norm_num) (by norm_num) (by norm_num) (by norm_num)
     (by norm_num) (by norm_num)⟩

end BatteryUtils

namespace BatteryUtilsEXPERIMENTAL

open BatteryUtils (DrivingStyle CapacityType EfficiencySource RangeInputs RangeResult)

/-- `SMALL_WHEEL_REF = 10.0` in batteryutils_EXPERIMENTAL.py. -/
def SMALL_WHEEL_REF : ℚ := 10

/-- `LARGE_WHEEL_REF = 27.5` in batteryutils_EXPERIMENTAL.py. -/
def LARGE_WHEEL_REF : ℚ := 55/2

/-- `SMALL_WHEEL_EFFICIENCY` of batteryutils_EXPERIMENTAL.py:
`{"Eco": 33.28, "Casual": 30.0, "Agressive": 45.0}`. -/
def SMALL_WHEEL_EFFICIENCY : DrivingStyle → Option ℚ
  | DrivingStyle.Eco => some (3328/100)
  | DrivingStyle.Casual => some 30
  | DrivingStyle.Agressive => some 45
  | DrivingStyle.Unknown => none

/-- `LARGE_WHEEL_EFFICIENCY` of batteryutils_EXPERIMENTAL.py:
`{"Eco": 41.6, "Casual": 65.0, "Agressive": 80.0}`. -/
def LARGE_WHEEL_EFFICIENCY : DrivingStyle → Option ℚ
  | DrivingStyle.Eco => some (416/10)
  | DrivingStyle.Casual => some 65
  | DrivingStyle.Agressive => some 80
  | DrivingStyle.Unknown => none

/-- `calculate_range` of batteryutils_EXPERIMENTAL.py (lines 1159-1243):
same validation, Ah→Wh conversion, logged-efficiency override branch,
wheel-diameter interpolation with clamping, and divisions as the main
variant (the two differ only in message-box/label strings).  The
interpolation block is inline here, as in that source. -/
def calculate_range (inp : RangeInputs) : Option RangeResult :=
  if inp.nominal_voltage ≤ 0 ∨ inp.capacity ≤ 0 ∨ inp.wheel_diameter ≤ 0 then none
  else
    let total_energy_wh :=
      match inp.capacity_type with
      | CapacityType.Wh => inp.capacity
      | CapacityType.Ah => inp.capacity * inp.nominal_voltage
    let source :=
      if inp.use_logged_efficiency ∧ inp.logged_wh_per_mile_average > 0 then
        some (inp.logged_wh_per_mile_average, EfficiencySource.Logged)
      else
        let interpolation_factor :=
          (inp.wheel_diameter - SMALL_WHEEL_REF) / (LARGE_WHEEL_REF - SMALL_WHEEL_REF)
        let interpolation_factor := max 0 (min 1 interpolation_factor)
        match SMALL_WHEEL_EFFICIENCY inp.driving_style,
              LARGE_WHEEL_EFFICIENCY inp.driving_style with
        | some base_wh_per_mile_small, some base_wh_per_mile_large =>
          some (base_wh_per_mile_small * (1 - interpolation_factor) +
                base_wh_per_mile_large * interpolation_factor,
                EfficiencySource.Predicted)
        | _, _ => none
    match source with
    | none => none
    | some (adjusted_wh_per_mile, efficiency_source) =>
      if adjusted_wh_per_mile ≤ 0 then none
      else
        some (RangeResult.mk total_energy_wh adjusted_wh_per_mile
          (total_energy_wh / adjusted_wh_per_mile)
          (1 / adjusted_wh_per_mile)
          (inp.nominal_voltage / adjusted_wh_per_mile)
          efficiency_source)

end BatteryUtilsEXPERIMENTAL

namespace BatteryUtils

/-- C9: on identical inputs (nominal voltage, capacity and capacity type,
wheel diameter, driving style, logged-efficiency flag and logged average)
the range calculations of batteryutils.py and batteryutils_EXPERIMENTAL.py
return identical results — in particular equal adjusted Wh/mile and equal
estimated full range: their tables, interpolation, clamping and override
branch coincide. -/
theorem variants_compute_equal_range (inp : RangeInputs) :
    calculate_range inp = BatteryUtilsEXPERIMENTAL.calculate_range inp := by
  obtain ⟨nv, ct, cap, ds, wd, ul, la⟩ := inp
  cases ds <;> cases ct <;> rfl

end BatteryUtils
